import Mathlib

/-!
Verification development for the Ray autoscaler command layer
(`python/ray/autoscaler/commands.py`).

The file embeds, as executable Lean definitions, the provider-facing
state and the control decisions made by `get_or_create_head_node`,
`teardown_cluster`, `_bootstrap_config`, `exec_cluster` and `rsync`,
and proves the behavioural properties claimed of them.

External collaborators (the node provider, `random.sample`,
`hash_launch_conf`, `json.loads`, `prepare_config`, `validate_config`,
the provider bootstrap transform) enter as explicit state, function
parameters, or environment records; the control flow itself is
translated directly from `commands.py`.
-/

/-! ### Tags

Modelled from the spec: the constants of `ray.autoscaler.tags` are not
under `src/`; the spec describes a node's tag set as
`{role ∈ {head, worker}, launch_hash, name}`.  The concrete strings are
irrelevant as long as the three keys are distinct. -/

def TAG_RAY_NODE_TYPE : String := "ray-node-type"

def TAG_RAY_LAUNCH_CONFIG : String := "ray-launch-config"

def TAG_RAY_NODE_NAME : String := "ray-node-name"

def NODE_TYPE_HEAD : String := "head"

def NODE_TYPE_WORKER : String := "worker"

/-! ### Provider state

Modelled from the spec (§6): the provider capability set
`createNode(spec, tags, count)`, `terminateNode(id)`,
`nonTerminatedNodes(tagFilter)`, `nodeTags(id)`.  A node is an opaque
id with a tag map and a lifecycle state implied by membership in
non-terminated query results. -/

structure PNode where
  id : Nat
  tags : List (String × String)
  terminated : Bool
deriving Repr, DecidableEq

structure ProviderState where
  nodes : List PNode
  nextId : Nat
deriving Repr, DecidableEq

/-- `dict.get(k)` on a tag map. -/
def tagGet (tags : List (String × String)) (k : String) : Option String :=
  (tags.find? (fun p => p.1 == k)).map Prod.snd

/-- A node's tags match a tag filter when every filter entry is present. -/
def matchesTags (tags tagFilter : List (String × String)) : Bool :=
  tagFilter.all (fun p => tagGet tags p.1 == some p.2)

/-- `provider.non_terminated_nodes(tag_filter)`. -/
def nonTerminatedNodes (s : ProviderState) (tagFilter : List (String × String)) :
    List Nat :=
  (s.nodes.filter (fun n => !n.terminated && matchesTags n.tags tagFilter)).map PNode.id

/-- `provider.node_tags(node_id)`. -/
def nodeTags (s : ProviderState) (nodeId : Nat) : List (String × String) :=
  match s.nodes.find? (fun n => n.id == nodeId) with
  | some n => n.tags
  | none => []

/-- `provider.terminate_node(node_id)`: flips the lifecycle state only;
the tag map of every node is left untouched. -/
def terminateNode (s : ProviderState) (nodeId : Nat) : ProviderState :=
  { s with
    nodes := s.nodes.map (fun n =>
      if n.id == nodeId then { n with terminated := true } else n) }

/-- `provider.create_node(spec, tags, count)`: appends `count` fresh
non-terminated nodes carrying exactly the given tags. -/
def createNode (s : ProviderState) (tags : List (String × String)) (count : Nat) :
    ProviderState :=
  { s with
    nodes := s.nodes ++ (List.range count).map
      (fun i => { id := s.nextId + i, tags := tags, terminated := false }),
    nextId := s.nextId + count }

/-- The provider-mutating calls issued by a code path, in order. -/
inductive ProviderAction where
  | terminate (nodeId : Nat)
  | create (tags : List (String × String)) (count : Nat)
deriving Repr, DecidableEq

/-! ### Head-node create-or-replace decision

`get_or_create_head_node`, lines 276-304 of `commands.py`. -/

def headNodeTagFilter : List (String × String) :=
  [(TAG_RAY_NODE_TYPE, NODE_TYPE_HEAD)]

/-- The tag map attached to a freshly launched head node
(`head_node_tags` after lines 301-303). -/
def newHeadNodeTags (launchHash clusterName : String) : List (String × String) :=
  [(TAG_RAY_NODE_TYPE, NODE_TYPE_HEAD),
   (TAG_RAY_LAUNCH_CONFIG, launchHash),
   (TAG_RAY_NODE_NAME, "ray-" ++ clusterName ++ "-head")]

/-- Lines 279-304 of `get_or_create_head_node`: query the head, compare
its recorded launch hash against the freshly computed `launchHash`
(computed by the external `hash_launch_conf`, passed in here), and
terminate/create accordingly.  Returns the provider calls issued and
the resulting provider state. -/
def getOrCreateHeadNodeDecision (s : ProviderState) (launchHash clusterName : String) :
    List ProviderAction × ProviderState :=
  let nodes := nonTerminatedNodes s headNodeTagFilter
  match nodes.head? with
  | some headNode =>
    if tagGet (nodeTags s headNode) TAG_RAY_LAUNCH_CONFIG == some launchHash then
      ([], s)
    else
      let tags := newHeadNodeTags launchHash clusterName
      ([ProviderAction.terminate headNode, ProviderAction.create tags 1],
       createNode (terminateNode s headNode) tags 1)
  | none =>
    let tags := newHeadNodeTags launchHash clusterName
    ([ProviderAction.create tags 1], createNode s tags 1)

/-! ### Teardown convergence loop

`teardown_cluster`, lines 180-189 of `commands.py`:

    A = remaining_nodes()
    while A:
        provider.terminate_nodes(A)
        time.sleep(1)
        A = remaining_nodes()

The provider's answers to the successive `remaining_nodes` queries are
the environment `env : Nat → List Nat` (`env i` is the i-th query
result).  Each loop iteration contributes one trace element
`(env i, 1)`: the full batch passed to `terminate_nodes`, and the one
second slept before re-querying.  The loop has no bound of its own;
`fuel` is observation depth only — `none` means the loop is still
running after `fuel` iterations, and the code supplies no fuel. -/

def teardownClusterLoop (env : Nat → List Nat) :
    Nat → Nat → Option (List (List Nat × Nat))
  | 0, i => if env i = [] then some [] else none
  | fuel + 1, i =>
    if env i = [] then some []
    else (teardownClusterLoop env fuel (i + 1)).map (fun rest => (env i, 1) :: rest)

/-! ### Head-node readiness poll

`get_or_create_head_node`, lines 306-315 of `commands.py`:

    start = time.time()
    while True:
        if time.time() - start > 50:
            raise RuntimeError("Failed to create head node.")
        nodes = provider.non_terminated_nodes(head_node_tags)
        if len(nodes) == 1:
            head_node = nodes[0]; break
        time.sleep(1)

Each iteration sleeps one second, so on the t-th iteration the elapsed
time is t seconds; the deadline check `elapsed > 50` fires first at
t = 51.  `env t` is the provider's answer to the query at elapsed time
t.  The fuel argument is a structural-recursion bound only: with fuel
52 the deadline check always fires before the fuel runs out, so the
fuel-0 branch is unreachable from `getOrCreateHeadNodeWait`. -/

def waitForHeadNode (env : Nat → List Nat) : Nat → Nat → Except String Nat
  | 0, _ => Except.error "Failed to create head node."
  | fuel + 1, t =>
    if 50 < t then Except.error "Failed to create head node."
    else
      match env t with
      | [x] => Except.ok x
      | _ => waitForHeadNode env fuel (t + 1)

def getOrCreateHeadNodeWait (env : Nat → List Nat) : Except String Nat :=
  waitForHeadNode env 52 0

/-! Concrete environments used to exercise the loops. -/

def c3EnvA : Nat → List Nat := fun i => if i < 2 then [5, 6] else []

def c3EnvB : Nat → List Nat := fun _ => [5]

def c4EnvA : Nat → List Nat := fun t => if t = 2 then [7] else []

def c4EnvB : Nat → List Nat := fun _ => []

/-! ### Config resolution with cache (`_bootstrap_config`, lines 103-125)

External collaborators appear as the fields of `BootstrapEnv`:
`prepare` is `prepare_config`, `cacheKeyOf` the sha1-derived cache
path, `cacheRead` is `os.path.exists` + `open().read()` (`none` when
the file does not exist), `parse` is `json.loads` (`none` when the
content does not parse, i.e. the call raises), `validateOk` is
`validate_config` (raises on `false`), `providerSupported` is the
`NODE_PROVIDERS` lookup, and `bootstrap` is
`provider_cls.bootstrap_config`.  Configs are carried as their opaque
serialized form (`String`). -/

structure BootstrapEnv where
  prepare : String → String
  cacheKeyOf : String → String
  cacheRead : String → Option String
  parse : String → Option String
  validateOk : String → Bool
  providerSupported : String → Bool
  bootstrap : String → String

inductive BootstrapError where
  | jsonDecodeError
  | configError
  | notImplementedError
deriving DecidableEq, Repr

/-- The externally visible work done on the full-resolution path. -/
inductive BootEffect where
  | validateCall
  | bootstrapCall
  | cacheWrite
deriving DecidableEq, Repr

/-- Lines 113-125: validate, look up the provider, bootstrap, and
persist the result unless `no_config_cache`. -/
def fullResolutionPath (env : BootstrapEnv) (prepared : String)
    (noConfigCache : Bool) : Except BootstrapError (String × List BootEffect) :=
  if !env.validateOk prepared then Except.error BootstrapError.configError
  else if !env.providerSupported prepared then
    Except.error BootstrapError.notImplementedError
  else
    Except.ok (env.bootstrap prepared,
      [BootEffect.validateCall, BootEffect.bootstrapCall] ++
        if noConfigCache then [] else [BootEffect.cacheWrite])

/-- `_bootstrap_config(config, no_config_cache)`.  On a cache hit with
caching allowed the file content is fed to `json.loads` and returned
directly (lines 110-112) — no validation, no bootstrap, no write; a
content that fails to parse propagates the `json.loads` error. -/
def bootstrapConfig (env : BootstrapEnv) (config : String) (noConfigCache : Bool) :
    Except BootstrapError (String × List BootEffect) :=
  let prepared := env.prepare config
  let cacheKey := env.cacheKeyOf prepared
  match env.cacheRead cacheKey, noConfigCache with
  | some content, false =>
    match env.parse content with
    | some cached => Except.ok (cached, [])
    | none => Except.error BootstrapError.jsonDecodeError
  | _, _ => fullResolutionPath env prepared noConfigCache

/-- Cache entry present but corrupt (its content does not parse);
everything else healthy. -/
def c5CorruptEnv : BootstrapEnv :=
  { prepare := fun c => c,
    cacheKeyOf := fun c => "ray-config-" ++ c,
    cacheRead := fun _ => some "garbage",
    parse := fun _ => none,
    validateOk := fun _ => true,
    providerSupported := fun _ => true,
    bootstrap := fun c => "resolved-" ++ c }

/-- Cache entry present and well-formed. -/
def c5HitEnv : BootstrapEnv :=
  { prepare := fun c => c,
    cacheKeyOf := fun c => "ray-config-" ++ c,
    cacheRead := fun _ => some "cached-content",
    parse := fun content => some ("parsed-" ++ content),
    validateOk := fun _ => true,
    providerSupported := fun _ => true,
    bootstrap := fun c => "resolved-" ++ c }

/-- No cache entry on disk. -/
def c5MissEnv : BootstrapEnv :=
  { prepare := fun c => c,
    cacheKeyOf := fun c => "ray-config-" ++ c,
    cacheRead := fun _ => none,
    parse := fun content => some content,
    validateOk := fun _ => true,
    providerSupported := fun _ => true,
    bootstrap := fun c => "resolved-" ++ c }

/-! ### Command selection for the head updater

`get_or_create_head_node`, lines 351-359 (the flag-driven selection)
and 364-375 (the arguments handed to `NodeUpdaterThread`). -/

structure HeadCommandsConfig where
  initializationCommands : List String
  headSetupCommands : List String
  headStartRayCommands : List String
deriving DecidableEq, Repr

/-- The three command lists the `NodeUpdaterThread` is constructed
with (`initialization_commands`, `setup_commands`,
`ray_start_commands`). -/
structure UpdaterCommandArgs where
  initializationCommands : List String
  setupCommands : List String
  rayStartCommands : List String
deriving DecidableEq, Repr

/-- Lines 351-359: `(init_commands, ray_start_commands)` as selected by
the flags. -/
def selectHeadCommands (config : HeadCommandsConfig) (noRestart restartOnly : Bool) :
    List String × List String :=
  if restartOnly then ([], config.headStartRayCommands)
  else if noRestart then (config.headSetupCommands, [])
  else (config.headSetupCommands, config.headStartRayCommands)

/-- Lines 364-375: the updater always receives
`config["initialization_commands"]`, and the selected pair as its
setup/start lists. -/
def headUpdaterCommandArgs (config : HeadCommandsConfig) (noRestart restartOnly : Bool) :
    UpdaterCommandArgs :=
  { initializationCommands := config.initializationCommands,
    setupCommands := (selectHeadCommands config noRestart restartOnly).1,
    rayStartCommands := (selectHeadCommands config noRestart restartOnly).2 }

/-! ### Remote-config rewrite and file-mount injection

`get_or_create_head_node`, lines 322-349.  The resolved config is
flattened to the fields this code path touches. -/

structure ClusterConfig where
  clusterName : String
  providerType : String
  authSshProxyCommand : Option String
  authSshPrivateKey : String
  fileMounts : List (String × String)
  noRestartFlag : Option Bool
deriving DecidableEq, Repr

/-- `dict.update({k: v})` on an association list: overwrite in place if
the key exists, else append. -/
def dictUpdate (m : List (String × String)) (k v : String) :
    List (String × String) :=
  if m.any (fun p => p.1 == k) then
    m.map (fun p => if p.1 == k then (p.1, v) else p)
  else m ++ [(k, v)]

/-- Lines 322-349: build the deep-copied remote config (proxy command
dropped, private key rewritten to `~/ray_bootstrap_key.pem` for
non-kubernetes providers, file mounts re-rooted at their remote paths,
`no_restart` recorded) and then update the original config's
`file_mounts` with the bootstrap-config mount and, for non-kubernetes
providers, the private-key mount.  Returns
`(remote_config, config-after-mutation)`. -/
def prepareRemoteConfigAndMounts (config : ClusterConfig) (noRestart : Bool)
    (remoteConfigFileName : String) : ClusterConfig × ClusterConfig :=
  let remoteConfig := { config with authSshProxyCommand := none }
  let remoteConfig :=
    if config.providerType != "kubernetes" then
      { remoteConfig with authSshPrivateKey := "~/ray_bootstrap_key.pem" }
    else remoteConfig
  let remoteConfig :=
    { remoteConfig with
      fileMounts := config.fileMounts.map (fun p => (p.1, p.1)),
      noRestartFlag := some noRestart }
  let mutated :=
    { config with
      fileMounts :=
        dictUpdate config.fileMounts "~/ray_bootstrap_config.yaml"
          remoteConfigFileName }
  let mutated :=
    if config.providerType != "kubernetes" then
      { mutated with
        fileMounts :=
          dictUpdate mutated.fileMounts "~/ray_bootstrap_key.pem"
            config.authSshPrivateKey }
    else mutated
  (remoteConfig, mutated)

/-! ### Teardown target selection (`remaining_nodes`, lines 159-178)

`random.sample(workers, len(workers) - min_workers)` is the external
standard library; it enters as the `sample` parameter, constrained in
the theorems by its documented contract (a uniformly chosen list of
`k` distinct elements of the population — formalised as: a sublist of
the given length). -/

def workerNodeTagFilter : List (String × String) :=
  [(TAG_RAY_NODE_TYPE, NODE_TYPE_WORKER)]

def remainingNodes (s : ProviderState) (minWorkers : Nat)
    (keepMinWorkers workersOnly : Bool)
    (sample : List Nat → Nat → List Nat) : List Nat :=
  let workers := nonTerminatedNodes s workerNodeTagFilter
  let workers :=
    if keepMinWorkers then sample workers (workers.length - minWorkers)
    else workers
  if workersOnly then workers
  else nonTerminatedNodes s headNodeTagFilter ++ workers

/-- The workers left non-terminated after the target set is
terminated. -/
def survivingWorkers (workers targets : List Nat) : List Nat :=
  workers.filter (fun w => decide (w ∉ targets))

/-! ### `exec_cluster` stop sequence (lines 506-516) -/

/-- Lines 508-516: the command-string rewrite applied when `stop` is
requested.  `isDocker` is `isinstance(updater.cmd_runner,
DockerCommandRunner)`.  Returns the final command string and whether
`shutdown_after_next_cmd()` was invoked on the runner instead of
appending an OS-level shutdown. -/
def execClusterStopCommand (cmd : String) (stop isDocker : Bool)
    (runEnv : String) : String × Bool :=
  if cmd ≠ "" && stop then
    let cmd := cmd ++ String.intercalate "; "
      ["ray stop",
       "ray teardown ~/ray_bootstrap_config.yaml --yes --workers-only"]
    if isDocker && (runEnv == "docker") then (cmd, true)
    else (cmd ++ "; sudo shutdown -h now", false)
  else (cmd, false)

/-! ### `rsync` argument guard (lines 590-636) -/

/-- Python truthiness of an optional string argument (`None` and `""`
are falsy). -/
def truthyStr : Option String → Bool
  | none => false
  | some s => !(s == "")

/-- The externally visible steps of `rsync`, in program order. -/
inductive RsyncEffect where
  | bootstrapConfigCall
  | getProviderCall
  | syncPair (down : Bool) (src dst : String)
  | syncAllFileMounts (down : Bool)
deriving DecidableEq, Repr

/-- `rsync(config_file, source, target, ..., down, all_nodes)`: the
assert on line 590 fires before the config is loaded or resolved,
before the provider is obtained, and before any per-node sync; on the
ok path the effect list records config resolution, provider
acquisition, and one sync per selected node (an explicit pair when
both `source` and `target` are truthy, else a full file-mount sync). -/
def rsyncCommand (source target : Option String) (down allNodes : Bool)
    (workerNodes : List Nat) (headNode : Nat) :
    Except String (List RsyncEffect) :=
  if truthyStr source == truthyStr target then
    let nodes := (if allNodes then workerNodes else []) ++ [headNode]
    Except.ok ([RsyncEffect.bootstrapConfigCall, RsyncEffect.getProviderCall] ++
      nodes.map (fun _ =>
        if truthyStr source && truthyStr target then
          RsyncEffect.syncPair down (source.getD "") (target.getD "")
        else RsyncEffect.syncAllFileMounts down))
  else Except.error "Must either provide both or neither source and target."

/-! ### Helper lemmas about the provider model -/

theorem nodeTags_terminateNode (s : ProviderState) (victim k : Nat) :
    nodeTags (terminateNode s victim) k = nodeTags s k := by
  unfold nodeTags terminateNode
  induction s.nodes with
  | nil => rfl
  | cons n rest ih =>
    simp only [List.map_cons, List.find?_cons]
    by_cases hid : n.id == victim
    · simp only [hid, if_pos rfl]
      by_cases hk : n.id == k
      · simp [hk]
      · simpa [hk] using ih
    · simp only [hid]
      simp only [Bool.false_eq_true, if_false]
      by_cases hk : n.id == k
      · simp [hk]
      · simpa [hk] using ih

theorem nodeTags_createNode_of_found (s : ProviderState)
    (tags : List (String × String)) (count k : Nat)
    (h : (s.nodes.find? (fun n => n.id == k)).isSome) :
    nodeTags (createNode s tags count) k = nodeTags s k := by
  unfold nodeTags createNode
  simp only
  rw [List.find?_append]
  obtain ⟨n, hn⟩ := Option.isSome_iff_exists.mp h
  rw [hn]
  rfl

theorem find?_isSome_of_mem_nonTerminated (s : ProviderState)
    (tagFilter : List (String × String)) (k : Nat)
    (h : k ∈ nonTerminatedNodes s tagFilter) :
    (s.nodes.find? (fun n => n.id == k)).isSome := by
  unfold nonTerminatedNodes at h
  rw [List.mem_map] at h
  obtain ⟨n, hn, hid⟩ := h
  rw [List.find?_isSome]
  exact ⟨n, List.mem_of_mem_filter hn, by simp [hid]⟩

theorem find?_isSome_terminateNode (s : ProviderState) (victim k : Nat) :
    ((terminateNode s victim).nodes.find? (fun n => n.id == k)).isSome =
      (s.nodes.find? (fun n => n.id == k)).isSome := by
  unfold terminateNode
  induction s.nodes with
  | nil => rfl
  | cons n rest ih =>
    simp only [List.map_cons, List.find?_cons]
    by_cases hid : n.id == victim
    · simp only [hid, if_pos rfl]
      by_cases hk : n.id == k
      · simp [hk]
      · simpa [hk] using ih
    · simp only [hid]
      simp only [Bool.false_eq_true, if_false]
      by_cases hk : n.id == k
      · simp [hk]
      · simpa [hk] using ih

theorem nodeTags_replaceNode (s : ProviderState) (victim k : Nat)
    (tags : List (String × String)) (count : Nat)
    (h : (s.nodes.find? (fun n => n.id == k)).isSome) :
    nodeTags (createNode (terminateNode s victim) tags count) k = nodeTags s k := by
  rw [nodeTags_createNode_of_found, nodeTags_terminateNode]
  rw [find?_isSome_terminateNode]
  exact h

/-- **C1.**  When a head node exists and its recorded `launch_hash` tag
differs from the freshly computed hash, `get_or_create_head_node`
terminates exactly that node and issues exactly one `create_node` call
for one node tagged `{role=head, launch_hash, name}`; the existing
node's tag map (in particular its `launch_hash` tag) is never mutated
in place. -/
theorem claim_c1_head_replaced (s : ProviderState)
    (launchHash clusterName : String) (hd : Nat) (rest : List Nat)
    (hq : nonTerminatedNodes s headNodeTagFilter = hd :: rest)
    (hne : tagGet (nodeTags s hd) TAG_RAY_LAUNCH_CONFIG ≠ some launchHash) :
    (getOrCreateHeadNodeDecision s launchHash clusterName).1 =
      [ProviderAction.terminate hd,
       ProviderAction.create (newHeadNodeTags launchHash clusterName) 1] ∧
    nodeTags (getOrCreateHeadNodeDecision s launchHash clusterName).2 hd =
      nodeTags s hd := by
  have hbeq : (tagGet (nodeTags s hd) TAG_RAY_LAUNCH_CONFIG ==
      some launchHash) = false := by
    simp only [beq_eq_false_iff_ne, ne_eq]
    exact hne
  have hmem : hd ∈ nonTerminatedNodes s headNodeTagFilter := by
    rw [hq]; exact List.mem_cons_self hd rest
  constructor
  · simp [getOrCreateHeadNodeDecision, hq, hbeq]
  · simp only [getOrCreateHeadNodeDecision, hq, List.head?_cons, hbeq,
      Bool.false_eq_true, if_false]
    exact nodeTags_replaceNode s hd hd _ 1
      (find?_isSome_of_mem_nonTerminated s headNodeTagFilter hd hmem)

theorem claim_c1_witness :
    nonTerminatedNodes
        ⟨[⟨1, [(TAG_RAY_NODE_TYPE, NODE_TYPE_HEAD),
               (TAG_RAY_LAUNCH_CONFIG, "oldhash")], false⟩], 2⟩
        headNodeTagFilter = 1 :: [] ∧
    tagGet (nodeTags
        ⟨[⟨1, [(TAG_RAY_NODE_TYPE, NODE_TYPE_HEAD),
               (TAG_RAY_LAUNCH_CONFIG, "oldhash")], false⟩], 2⟩ 1)
        TAG_RAY_LAUNCH_CONFIG ≠ some "newhash" ∧
    (getOrCreateHeadNodeDecision
        ⟨[⟨1, [(TAG_RAY_NODE_TYPE, NODE_TYPE_HEAD),
               (TAG_RAY_LAUNCH_CONFIG, "oldhash")], false⟩], 2⟩
        "newhash" "mycluster").1 =
      [ProviderAction.terminate 1,
       ProviderAction.create (newHeadNodeTags "newhash" "mycluster") 1] ∧
    nodeTags (getOrCreateHeadNodeDecision
        ⟨[⟨1, [(TAG_RAY_NODE_TYPE, NODE_TYPE_HEAD),
               (TAG_RAY_LAUNCH_CONFIG, "oldhash")], false⟩], 2⟩
        "newhash" "mycluster").2 1 =
      nodeTags
        ⟨[⟨1, [(TAG_RAY_NODE_TYPE, NODE_TYPE_HEAD),
               (TAG_RAY_LAUNCH_CONFIG, "oldhash")], false⟩], 2⟩ 1 := by
  refine ⟨by decide, by decide, ?_⟩
  exact claim_c1_head_replaced _ "newhash" "mycluster" 1 [] (by decide) (by decide)

/-- **C2.**  Head-node reconciliation is idempotent: when the head query
returns a single node whose recorded `launch_hash` tag equals the hash
computed from the current config, the decision step issues no provider
calls and leaves the provider state unchanged, so a second call (with
no state change in between) also performs zero create and zero
terminate actions. -/
theorem claim_c2_idempotent (s : ProviderState)
    (launchHash clusterName : String) (hd : Nat)
    (hq : nonTerminatedNodes s headNodeTagFilter = [hd])
    (hm : tagGet (nodeTags s hd) TAG_RAY_LAUNCH_CONFIG = some launchHash) :
    getOrCreateHeadNodeDecision s launchHash clusterName = ([], s) ∧
    (getOrCreateHeadNodeDecision
        (getOrCreateHeadNodeDecision s launchHash clusterName).2
        launchHash clusterName).1 = [] := by
  have h1 : getOrCreateHeadNodeDecision s launchHash clusterName = ([], s) := by
    simp [getOrCreateHeadNodeDecision, hq, hm]
  exact ⟨h1, by rw [h1]; rw [h1]⟩

theorem claim_c2_witness :
    nonTerminatedNodes
        ⟨[⟨1, [(TAG_RAY_NODE_TYPE, NODE_TYPE_HEAD),
               (TAG_RAY_LAUNCH_CONFIG, "h0")], false⟩], 2⟩
        headNodeTagFilter = [1] ∧
    tagGet (nodeTags
        ⟨[⟨1, [(TAG_RAY_NODE_TYPE, NODE_TYPE_HEAD),
               (TAG_RAY_LAUNCH_CONFIG, "h0")], false⟩], 2⟩ 1)
        TAG_RAY_LAUNCH_CONFIG = some "h0" ∧
    getOrCreateHeadNodeDecision
        ⟨[⟨1, [(TAG_RAY_NODE_TYPE, NODE_TYPE_HEAD),
               (TAG_RAY_LAUNCH_CONFIG, "h0")], false⟩], 2⟩ "h0" "c" =
      ([], ⟨[⟨1, [(TAG_RAY_NODE_TYPE, NODE_TYPE_HEAD),
               (TAG_RAY_LAUNCH_CONFIG, "h0")], false⟩], 2⟩) := by
  refine ⟨by decide, by decide, ?_⟩
  exact (claim_c2_idempotent _ "h0" "c" 1 (by decide) (by decide)).1

theorem teardownClusterLoop_some (env : Nat → List Nat) :
    ∀ (fuel i : Nat) (tr : List (List Nat × Nat)),
      teardownClusterLoop env fuel i = some tr →
      env (i + tr.length) = [] ∧
      (∀ j (hj : j < tr.length), tr.get ⟨j, hj⟩ = (env (i + j), 1)) ∧
      (∀ j, j < tr.length → env (i + j) ≠ []) := by
  intro fuel
  induction fuel with
  | zero =>
    intro i tr h
    unfold teardownClusterLoop at h
    by_cases he : env i = []
    · rw [if_pos he] at h
      obtain rfl : tr = [] := by exact (Option.some_inj.mp h).symm
      refine ⟨by simpa using he, ?_, ?_⟩
      · intro j hj; exact absurd hj (by simp)
      · intro j hj; exact absurd hj (by simp)
    · rw [if_neg he] at h
      exact absurd h (by simp)
  | succ fuel ih =>
    intro i tr h
    unfold teardownClusterLoop at h
    by_cases he : env i = []
    · rw [if_pos he] at h
      obtain rfl : tr = [] := by exact (Option.some_inj.mp h).symm
      refine ⟨by simpa using he, ?_, ?_⟩
      · intro j hj; exact absurd hj (by simp)
      · intro j hj; exact absurd hj (by simp)
    · rw [if_neg he] at h
      rw [Option.map_eq_some'] at h
      obtain ⟨rest, hrest, rfl⟩ := h
      obtain ⟨h1, h2, h3⟩ := ih (i + 1) rest hrest
      refine ⟨?_, ?_, ?_⟩
      · have : i + (rest.length + 1) = i + 1 + rest.length := by omega
        simpa [this] using h1
      · intro j hj
        match j with
        | 0 => rfl
        | j + 1 =>
          have hj2 : j < rest.length := by
            simpa using Nat.lt_of_succ_lt_succ (by simpa using hj)
          have := h2 j hj2
          have hidx : i + 1 + j = i + (j + 1) := by omega
          rw [hidx] at this
          simpa using this
      · intro j hj
        match j with
        | 0 => simpa using he
        | j + 1 =>
          have hj2 : j < rest.length := by
            simpa using Nat.lt_of_succ_lt_succ (by simpa using hj)
          have := h3 j hj2
          have hidx : i + 1 + j = i + (j + 1) := by omega
          rwa [hidx] at this

theorem teardownClusterLoop_none_of_never_empty (env : Nat → List Nat)
    (h : ∀ i, env i ≠ []) :
    ∀ (fuel i : Nat), teardownClusterLoop env fuel i = none := by
  intro fuel
  induction fuel with
  | zero => intro i; unfold teardownClusterLoop; rw [if_neg (h i)]
  | succ fuel ih =>
    intro i
    unfold teardownClusterLoop
    rw [if_neg (h i), ih (i + 1)]
    rfl

/-- **C3.**  The teardown convergence loop exits only when the provider
reports zero matching non-terminated nodes: a completed run of length k
has `env k = []`, every earlier query non-empty, and every iteration
terminates the full queried batch and then sleeps exactly 1 second
before re-querying.  There is no hard iteration or time bound: against
a provider that never reports the set empty, no amount of fuel makes
the loop exit. -/
theorem claim_c3_teardown_convergence (env : Nat → List Nat) (fuel : Nat) :
    (∀ tr, teardownClusterLoop env fuel 0 = some tr →
      env tr.length = [] ∧
      (∀ j (hj : j < tr.length), tr.get ⟨j, hj⟩ = (env j, 1)) ∧
      (∀ j, j < tr.length → env j ≠ [])) ∧
    ((∀ i, env i ≠ []) → teardownClusterLoop env fuel 0 = none) := by
  constructor
  · intro tr h
    obtain ⟨h1, h2, h3⟩ := teardownClusterLoop_some env fuel 0 tr h
    exact ⟨by simpa using h1, fun j hj => by simpa using h2 j hj,
      fun j hj => by simpa using h3 j hj⟩
  · intro h
    exact teardownClusterLoop_none_of_never_empty env h fuel 0

theorem claim_c3_witness :
    teardownClusterLoop c3EnvA 10 0 = some [([5, 6], 1), ([5, 6], 1)] ∧
    c3EnvA ([([5, 6], 1), ([5, 6], 1)] : List (List Nat × Nat)).length = [] ∧
    (∀ i, c3EnvB i ≠ []) ∧
    teardownClusterLoop c3EnvB 10 0 = none := by
  refine ⟨by decide, ?_, fun i => by simp [c3EnvB], ?_⟩
  · exact ((claim_c3_teardown_convergence c3EnvA 10).1 _ (by decide)).1
  · exact (claim_c3_teardown_convergence c3EnvB 10).2 (fun i => by simp [c3EnvB])

theorem waitForHeadNode_ok (env : Nat → List Nat) :
    ∀ (fuel t x : Nat), waitForHeadNode env fuel t = Except.ok x →
      ∃ u, t ≤ u ∧ u ≤ 50 ∧ env u = [x] ∧
        ∀ v, t ≤ v → v < u → (env v).length ≠ 1 := by
  intro fuel
  induction fuel with
  | zero =>
    intro t x h
    exact absurd h (by simp [waitForHeadNode])
  | succ fuel ih =>
    intro t x h
    unfold waitForHeadNode at h
    by_cases ht : 50 < t
    · rw [if_pos ht] at h
      exact absurd h (by simp)
    · rw [if_neg ht] at h
      rcases henv : env t with _ | ⟨y, _ | ⟨z, w⟩⟩
      · rw [henv] at h
        obtain ⟨u, hu1, hu2, hu3, hu4⟩ := ih (t + 1) x h
        refine ⟨u, by omega, hu2, hu3, ?_⟩
        intro v hv1 hv2
        rcases Nat.eq_or_lt_of_le hv1 with rfl | hlt
        · rw [henv]; simp
        · exact hu4 v hlt hv2
      · rw [henv] at h
        obtain rfl : y = x := by
          simpa using h
        exact ⟨t, Nat.le_refl t, by omega, henv, fun v hv1 hv2 => by omega⟩
      · rw [henv] at h
        obtain ⟨u, hu1, hu2, hu3, hu4⟩ := ih (t + 1) x h
        refine ⟨u, by omega, hu2, hu3, ?_⟩
        intro v hv1 hv2
        rcases Nat.eq_or_lt_of_le hv1 with rfl | hlt
        · rw [henv]; simp
        · exact hu4 v hlt hv2

theorem waitForHeadNode_error (env : Nat → List Nat) :
    ∀ (fuel t : Nat), (∀ u, t ≤ u → u ≤ 50 → (env u).length ≠ 1) →
      52 ≤ fuel + t →
      waitForHeadNode env fuel t = Except.error "Failed to create head node." := by
  intro fuel
  induction fuel with
  | zero => intro t _ _; rfl
  | succ fuel ih =>
    intro t hlen hfuel
    unfold waitForHeadNode
    by_cases ht : 50 < t
    · rw [if_pos ht]
    · rw [if_neg ht]
      have hne : (env t).length ≠ 1 := hlen t (Nat.le_refl t) (by omega)
      rcases henv : env t with _ | ⟨y, _ | ⟨z, w⟩⟩
      · exact ih (t + 1) (fun u hu => hlen u (by omega)) (by omega)
      · exact absurd (by rw [henv]; rfl) hne
      · exact ih (t + 1) (fun u hu => hlen u (by omega)) (by omega)

/-- **C4.**  After the create-or-replace decision,
`get_or_create_head_node` polls the provider for nodes tagged
`role=head` once per second (`env t` is the answer at elapsed time t).
It proceeds only when a query returns exactly one node — every earlier
query returned a list of length ≠ 1 — and the successful query happens
within the 50-second bound; if every query up to the bound returns a
length ≠ 1, it raises the fatal `RuntimeError("Failed to create head
node.")`, so it never reaches the update phase with zero or more than
one head visible. -/
theorem claim_c4_readiness_poll (env : Nat → List Nat) :
    (∀ x, getOrCreateHeadNodeWait env = Except.ok x →
      ∃ u, u ≤ 50 ∧ env u = [x] ∧ ∀ v, v < u → (env v).length ≠ 1) ∧
    ((∀ u, u ≤ 50 → (env u).length ≠ 1) →
      getOrCreateHeadNodeWait env =
        Except.error "Failed to create head node.") := by
  constructor
  · intro x h
    obtain ⟨u, _, hu2, hu3, hu4⟩ := waitForHeadNode_ok env 52 0 x h
    exact ⟨u, hu2, hu3, fun v hv => hu4 v (Nat.zero_le v) hv⟩
  · intro h
    exact waitForHeadNode_error env 52 0 (fun u _ hu => h u hu) (by omega)

theorem claim_c4_witness :
    getOrCreateHeadNodeWait c4EnvA = Except.ok 7 ∧
    (∃ u, u ≤ 50 ∧ c4EnvA u = [7] ∧ ∀ v, v < u → (c4EnvA v).length ≠ 1) ∧
    (∀ u, u ≤ 50 → (c4EnvB u).length ≠ 1) ∧
    getOrCreateHeadNodeWait c4EnvB =
      Except.error "Failed to create head node." := by
  refine ⟨rfl, ?_, fun u _ => by simp [c4EnvB], ?_⟩
  · exact (claim_c4_readiness_poll c4EnvA).1 7 rfl
  · exact (claim_c4_readiness_poll c4EnvB).2 (fun u _ => by simp [c4EnvB])

/-- **C5 (counterexample).**  The claim "if the cache entry is absent
or corrupted, resolve falls back to full resolution and never raises
an error from cache handling" is false on the code: with a cache entry
present but corrupt (`json.loads` fails) and caching allowed,
`_bootstrap_config` propagates the parse error even though the full
resolution of the same config would have succeeded. -/
theorem claim_c5_counterexample :
    bootstrapConfig c5CorruptEnv "cfg" false =
      Except.error BootstrapError.jsonDecodeError ∧
    fullResolutionPath c5CorruptEnv (c5CorruptEnv.prepare "cfg") false =
      Except.ok ("resolved-cfg",
        [BootEffect.validateCall, BootEffect.bootstrapCall,
         BootEffect.cacheWrite]) :=
  ⟨rfl, rfl⟩

/-- **C5 (amended).**  For every raw config: if caching is allowed and
a cache entry exists whose content parses, `_bootstrap_config` returns
the parsed entry verbatim with no validation, bootstrap, or cache
write; if the entry is absent (or caching is disabled) it performs the
full resolution (validate, bootstrap, persist); but if the entry
exists, caching is allowed, and the content is corrupt, the
`json.loads` error propagates — corruption does not fall back. -/
theorem claim_c5_cache_resolution (env : BootstrapEnv) (config : String)
    (noConfigCache : Bool) :
    (∀ content cached,
      env.cacheRead (env.cacheKeyOf (env.prepare config)) = some content →
      noConfigCache = false → env.parse content = some cached →
      bootstrapConfig env config noConfigCache = Except.ok (cached, [])) ∧
    (env.cacheRead (env.cacheKeyOf (env.prepare config)) = none ∨
        noConfigCache = true →
      bootstrapConfig env config noConfigCache =
        fullResolutionPath env (env.prepare config) noConfigCache) ∧
    (∀ content,
      env.cacheRead (env.cacheKeyOf (env.prepare config)) = some content →
      noConfigCache = false → env.parse content = none →
      bootstrapConfig env config noConfigCache =
        Except.error BootstrapError.jsonDecodeError) := by
  refine ⟨?_, ?_, ?_⟩
  · intro content cached hread hnc hparse
    subst hnc
    simp [bootstrapConfig, hread, hparse]
  · rintro (hread | hnc)
    · simp [bootstrapConfig, hread]
    · subst hnc
      rcases hread : env.cacheRead (env.cacheKeyOf (env.prepare config)) with _ | content
      · simp [bootstrapConfig, hread]
      · simp [bootstrapConfig, hread]
  · intro content hread hnc hparse
    subst hnc
    simp [bootstrapConfig, hread, hparse]

theorem claim_c5_witness :
    c5HitEnv.cacheRead (c5HitEnv.cacheKeyOf (c5HitEnv.prepare "cfg")) =
      some "cached-content" ∧
    c5HitEnv.parse "cached-content" = some "parsed-cached-content" ∧
    bootstrapConfig c5HitEnv "cfg" false =
      Except.ok ("parsed-cached-content", []) ∧
    c5MissEnv.cacheRead (c5MissEnv.cacheKeyOf (c5MissEnv.prepare "cfg")) = none ∧
    bootstrapConfig c5MissEnv "cfg" false =
      fullResolutionPath c5MissEnv (c5MissEnv.prepare "cfg") false := by
  refine ⟨rfl, rfl, ?_, rfl, ?_⟩
  · exact (claim_c5_cache_resolution c5HitEnv "cfg" false).1
      "cached-content" "parsed-cached-content" rfl rfl rfl
  · exact (claim_c5_cache_resolution c5MissEnv "cfg" false).2.1 (Or.inl rfl)

/-- **C6 (counterexample).**  The claim "when restartOnly, the Updater
runs only the start commands" is false on the code: the
`NodeUpdaterThread` is always constructed with
`config["initialization_commands"]`, so with a non-empty
initialization list and `restart_only` set, the updater's
initialization-command list is not empty. -/
theorem claim_c6_counterexample :
    (headUpdaterCommandArgs
      { initializationCommands := ["echo init"],
        headSetupCommands := ["echo setup"],
        headStartRayCommands := ["ray start"] } false true).initializationCommands
      ≠ [] := by
  decide

/-- **C6 (amended).**  Command selection in head-node reconciliation
is: the initialization commands are passed to the Updater
unconditionally; `restartOnly` empties the setup list and keeps the
start list; otherwise `noRestart` keeps the setup list and empties the
start list; with neither flag both lists are kept.  The updater
receives `(initialization, setup, start)` in that order. -/
theorem claim_c6_command_selection (config : HeadCommandsConfig)
    (noRestart restartOnly : Bool) :
    headUpdaterCommandArgs config noRestart restartOnly =
      { initializationCommands := config.initializationCommands,
        setupCommands := if restartOnly then [] else config.headSetupCommands,
        rayStartCommands :=
          if !restartOnly && noRestart then [] else config.headStartRayCommands } := by
  cases restartOnly <;> cases noRestart <;> rfl

/-- **C7 (counterexample).**  The claim that no downstream operation
mutates any field of the resolved config is false on the code:
`get_or_create_head_node` (lines 343-349) updates
`config["file_mounts"]` in place, so after the remote-config
preparation step the config's file-mount mapping differs from the one
the reconciler was given. -/
theorem claim_c7_counterexample :
    (prepareRemoteConfigAndMounts
      { clusterName := "c", providerType := "aws",
        authSshProxyCommand := none, authSshPrivateKey := "/home/me/key.pem",
        fileMounts := [("~/a", "/b")], noRestartFlag := none }
      false "/tmp/ray-bootstrap-x").2.fileMounts
      ≠ [("~/a", "/b")] := by
  decide

/-- **C7 (amended).**  Once resolved, the config is treated read-only
by downstream operations except for its file-mount mapping:
`get_or_create_head_node` leaves every other field of the given config
unchanged (the auth rewrites happen on a deep copy) but updates the
config's `file_mounts` in place, inserting the bootstrap-config mount
and, for non-kubernetes providers, the private-key mount. -/
theorem claim_c7_config_mutation (config : ClusterConfig) (noRestart : Bool)
    (remoteConfigFileName : String) :
    (prepareRemoteConfigAndMounts config noRestart remoteConfigFileName).2.clusterName
        = config.clusterName ∧
    (prepareRemoteConfigAndMounts config noRestart remoteConfigFileName).2.providerType
        = config.providerType ∧
    (prepareRemoteConfigAndMounts config noRestart
        remoteConfigFileName).2.authSshProxyCommand = config.authSshProxyCommand ∧
    (prepareRemoteConfigAndMounts config noRestart
        remoteConfigFileName).2.authSshPrivateKey = config.authSshPrivateKey ∧
    (prepareRemoteConfigAndMounts config noRestart remoteConfigFileName).2.noRestartFlag
        = config.noRestartFlag ∧
    (prepareRemoteConfigAndMounts config noRestart remoteConfigFileName).2.fileMounts
        = (if config.providerType != "kubernetes" then
            dictUpdate
              (dictUpdate config.fileMounts "~/ray_bootstrap_config.yaml"
                remoteConfigFileName)
              "~/ray_bootstrap_key.pem" config.authSshPrivateKey
          else
            dictUpdate config.fileMounts "~/ray_bootstrap_config.yaml"
              remoteConfigFileName) := by
  by_cases hk : config.providerType != "kubernetes" <;>
    simp [prepareRemoteConfigAndMounts, hk]

theorem length_filter_not_mem_of_sublist (sel l : List Nat)
    (hs : sel.Sublist l) (hnd : l.Nodup) :
    (l.filter (fun w => decide (w ∉ sel))).length = l.length - sel.length := by
  induction hs with
  | slnil => simp
  | @cons l₁ l₂ a hs ih =>
    rw [List.nodup_cons] at hnd
    have ha : a ∉ l₁ := fun hmem => hnd.1 (hs.subset hmem)
    have hlen := hs.length_le
    rw [List.filter_cons, if_pos (decide_eq_true ha)]
    simp only [List.length_cons, ih hnd.2]
    omega
  | @cons₂ l₁ l₂ a hs ih =>
    rw [List.nodup_cons] at hnd
    have hlen := hs.length_le
    have hcongr : l₂.filter (fun w => decide (w ∉ a :: l₁)) =
        l₂.filter (fun w => decide (w ∉ l₁)) := by
      apply List.filter_congr
      intro x hx
      have hxa : x ≠ a := fun h => hnd.1 (h ▸ hx)
      simp [List.mem_cons, hxa]
    rw [List.filter_cons, if_neg (by simp), hcongr, ih hnd.2]
    simp only [List.length_cons]
    omega

/-- **C8.**  For a teardown with `keep_min_workers` set and an initial
worker count of at least `min_workers`, the worker target set computed
by `remaining_nodes` is exactly `random.sample(workers,
len(workers) - min_workers)` — a set of `len(workers) - min_workers`
distinct workers (`sample`'s contract enters as the sublist/length
hypotheses) — so after terminating it, exactly `min_workers` workers
survive: the surviving count never drops below `min_workers`. -/
theorem claim_c8_keep_min_workers (s : ProviderState) (minWorkers : Nat)
    (sample : List Nat → Nat → List Nat) (ws : List Nat)
    (hws : ws = nonTerminatedNodes s workerNodeTagFilter)
    (hnd : ws.Nodup)
    (hmin : minWorkers ≤ ws.length)
    (hsub : (sample ws (ws.length - minWorkers)).Sublist ws)
    (hlen : (sample ws (ws.length - minWorkers)).length = ws.length - minWorkers) :
    remainingNodes s minWorkers true true sample =
      sample ws (ws.length - minWorkers) ∧
    (survivingWorkers ws
        (remainingNodes s minWorkers true true sample)).length = minWorkers := by
  subst hws
  constructor
  · rfl
  · show (survivingWorkers _ (sample _ _)).length = minWorkers
    unfold survivingWorkers
    rw [length_filter_not_mem_of_sublist _ _ hsub hnd, hlen]
    omega

theorem claim_c8_witness :
    [1, 2, 3] = nonTerminatedNodes
      ⟨[⟨1, [(TAG_RAY_NODE_TYPE, NODE_TYPE_WORKER)], false⟩,
        ⟨2, [(TAG_RAY_NODE_TYPE, NODE_TYPE_WORKER)], false⟩,
        ⟨3, [(TAG_RAY_NODE_TYPE, NODE_TYPE_WORKER)], false⟩], 4⟩
      workerNodeTagFilter ∧
    ([1, 2, 3] : List Nat).Nodup ∧
    remainingNodes
      ⟨[⟨1, [(TAG_RAY_NODE_TYPE, NODE_TYPE_WORKER)], false⟩,
        ⟨2, [(TAG_RAY_NODE_TYPE, NODE_TYPE_WORKER)], false⟩,
        ⟨3, [(TAG_RAY_NODE_TYPE, NODE_TYPE_WORKER)], false⟩], 4⟩
      1 true true (fun l k => l.take k) = [1, 2] ∧
    (survivingWorkers [1, 2, 3]
      (remainingNodes
        ⟨[⟨1, [(TAG_RAY_NODE_TYPE, NODE_TYPE_WORKER)], false⟩,
          ⟨2, [(TAG_RAY_NODE_TYPE, NODE_TYPE_WORKER)], false⟩,
          ⟨3, [(TAG_RAY_NODE_TYPE, NODE_TYPE_WORKER)], false⟩], 4⟩
        1 true true (fun l k => l.take k))).length = 1 := by
  have h := claim_c8_keep_min_workers
    ⟨[⟨1, [(TAG_RAY_NODE_TYPE, NODE_TYPE_WORKER)], false⟩,
      ⟨2, [(TAG_RAY_NODE_TYPE, NODE_TYPE_WORKER)], false⟩,
      ⟨3, [(TAG_RAY_NODE_TYPE, NODE_TYPE_WORKER)], false⟩], 4⟩
    1 (fun l k => l.take k) [1, 2, 3] (by decide) (by decide) (by decide)
    (by simp) (by decide)
  exact ⟨by decide, by decide, by simpa using h.1, h.2⟩

/-- **C9.**  Evaluation of the `exec_cluster` stop path at a concrete
input.  `cmd += "; ".join(["ray stop", "ray teardown ..."])` inserts
the separator only *between* the two joined commands, not between the
user command and `"ray stop"`: the user command `"echo hi"` is fused
into `"echo hiray stop"` instead of remaining a distinct shell
command, contradicting the claimed (and clearly intended) sequencing;
the OS-level shutdown is appended when not running in a managed
container. -/
theorem claim_c9_stop_sequence_eval :
    (execClusterStopCommand "echo hi" true false "auto").1 =
      "echo hiray stop; ray teardown ~/ray_bootstrap_config.yaml --yes --workers-only; sudo shutdown -h now" ∧
    (execClusterStopCommand "echo hi" true false "auto").1 ≠
      "echo hi; ray stop; ray teardown ~/ray_bootstrap_config.yaml --yes --workers-only; sudo shutdown -h now" :=
  ⟨rfl, by decide⟩

/-- **C10.**  `rsync` asserts `bool(source) == bool(target)` before
loading or resolving the config, obtaining the provider, or syncing
anything: when exactly one of source/target is set (truthy), the call
fails with the assertion error and produces no effects at all; when
both or neither are set it proceeds (config resolution first, then the
provider, then one sync per selected node). -/
theorem claim_c10_rsync_guard (source target : Option String)
    (down allNodes : Bool) (workerNodes : List Nat) (headNode : Nat) :
    (truthyStr source ≠ truthyStr target →
      rsyncCommand source target down allNodes workerNodes headNode =
        Except.error "Must either provide both or neither source and target.") ∧
    (truthyStr source = truthyStr target →
      ∃ effects,
        rsyncCommand source target down allNodes workerNodes headNode =
          Except.ok effects) := by
  constructor
  · intro h
    have hb : (truthyStr source == truthyStr target) = false := by
      simp only [beq_eq_false_iff_ne, ne_eq]
      exact h
    simp [rsyncCommand, hb]
  · intro h
    have hb : (truthyStr source == truthyStr target) = true := by
      simp [h]
    simp only [rsyncCommand, hb, if_true]
    exact ⟨_, rfl⟩

theorem claim_c10_witness :
    truthyStr (some "src") ≠ truthyStr none ∧
    rsyncCommand (some "src") none false false [] 1 =
      Except.error "Must either provide both or neither source and target." ∧
    truthyStr (some "src") = truthyStr (some "dst") ∧
    (∃ effects, rsyncCommand (some "src") (some "dst") false false [] 1 =
      Except.ok effects) := by
  refine ⟨by decide, ?_, by decide, ?_⟩
  · exact (claim_c10_rsync_guard (some "src") none false false [] 1).1 (by decide)
  · exact (claim_c10_rsync_guard (some "src") (some "dst") false false [] 1).2 (by decide)
